import Mathlib

/-!
Verification of the PayMintt payment-processing core against its
natural-language specification.

The definitions below are shallow embeddings of the TypeScript source:
  * `Recon`    — `src/components/ReconciliationEngine.tsx` (`runReconciliation`)
  * `Webhooks` — `supabase/functions/webhooks/index.ts` (signature
                 verification, event dispatch, retry scheduling)
  * `Payments` — `supabase/functions/payments/index.ts` (idempotent
                 payment creation)

Database rows are Lean structures, tables are lists of rows, and the
nondeterminism of the environment (clock, randomness, storage / gateway
outcomes) is passed in explicitly as an oracle record.  Cryptographic
digests (SHA-256 of the request body, HMAC-SHA256 of the webhook payload)
are modelled by an explicit function parameter, since the handlers only
ever compare digests for string equality.
-/

namespace PayMint

/-! ### Reconciliation matcher (ReconciliationEngine.tsx) -/

namespace Recon

/-- Row of `reconciliation_records` (fields used by `runReconciliation`).
`external_transaction_id` and `amount` are nullable columns. -/
structure ReconRecord where
  id : Nat
  external_transaction_id : Option String
  amount : Option Int
  status : String
  matched_payment_id : Option Nat
deriving DecidableEq, Repr

/-- Row of `payments` as read by the reconciliation engine
(`amount INTEGER NOT NULL`, `external_payment_id TEXT` nullable). -/
structure ReconPayment where
  id : Nat
  amount : Int
  external_payment_id : Option String
  created_at : Nat
deriving DecidableEq, Repr

/-- The match test of the inner loop:
`record.amount === payment.amount && record.external_transaction_id === payment.external_payment_id`. -/
def matchesPayment (r : ReconRecord) (p : ReconPayment) : Bool :=
  r.amount == some p.amount && r.external_transaction_id == p.external_payment_id

/-- Body of the outer loop of `runReconciliation` for one unmatched record:
scan `payments` in order, and on the first match update the record to
`status = "matched"` with `matched_payment_id = payment.id` (the loop
breaks after the first hit); otherwise leave the record unchanged. -/
def reconcileRecord (payments : List ReconPayment) (r : ReconRecord) : ReconRecord :=
  match payments.find? (matchesPayment r) with
  | some p => { r with status := "matched", matched_payment_id := some p.id }
  | none => r

/-- A whole reconciliation run over the fetched unmatched records:
each record is processed independently against the same payments list,
and the summary counts matched / unmatched records. -/
def runReconciliation (records : List ReconRecord) (payments : List ReconPayment) :
    List ReconRecord × Nat × Nat :=
  (records.map (reconcileRecord payments),
   records.countP (fun r => (payments.find? (matchesPayment r)).isSome),
   records.countP (fun r => (payments.find? (matchesPayment r)).isNone))

end Recon

/-! ### Webhook delivery failure handling and retry backoff
(webhooks/index.ts: `scheduleRetry` and the processing-error catch block) -/

namespace Webhooks

/-- Row of `webhook_deliveries` (fields used by the webhooks function).
`next_attempt_at` and `delivered_at` are clock values in milliseconds. -/
structure WebhookDelivery where
  id : Nat
  event_type : String
  status : String
  attempts : Nat
  error : Option String
  next_attempt_at : Option Nat
  delivered_at : Option Nat
deriving DecidableEq, Repr

/-- `Math.min(Math.pow(2, attempt) * 60, 3600)` — the backoff delay in
seconds computed by `scheduleRetry`. -/
def nextAttemptDelay (attempt : Nat) : Nat :=
  min (2 ^ attempt * 60) 3600

/-- `scheduleRetry(supabase, deliveryId, attempt)`: sets
`next_attempt_at = Date.now() + delay * 1000` and `attempts = attempt + 1`
on the delivery row (`now` is `Date.now()` in milliseconds). -/
def scheduleRetry (now : Nat) (attempt : Nat) (d : WebhookDelivery) : WebhookDelivery :=
  { d with next_attempt_at := some (now + nextAttemptDelay attempt * 1000),
           attempts := attempt + 1 }

/-- The processing-error catch block of the webhooks handler, as it acts
on the delivery row: if `delivery.attempts < 5` mark it `failed` with the
error text and call `scheduleRetry` with the current attempts value,
otherwise mark it `abandoned` with the error text. -/
def handleDeliveryFailure (now : Nat) (msg : String) (d : WebhookDelivery) : WebhookDelivery :=
  if d.attempts < 5 then
    scheduleRetry now d.attempts { d with status := "failed", error := some msg }
  else
    { d with status := "abandoned", error := some msg }

/-- JS `s.replace(pat, "")` for a plain (non-pattern) search string:
remove the first occurrence of `pat`, scanning left to right; when `pat`
does not occur the string is unchanged. -/
def removeFirstOcc (pat : List Char) : List Char → List Char
  | [] => []
  | c :: cs =>
    if pat.isPrefixOf (c :: cs) then List.drop pat.length (c :: cs)
    else c :: removeFirstOcc pat cs

/-- String wrapper for `removeFirstOcc`. -/
def jsReplaceOnce (s pat : String) : String :=
  String.mk (removeFirstOcc pat.data s.data)

/-- `verifyHMACSignature(payload, signature, secret)`: compute the
lowercase hex HMAC-SHA256 digest of the payload under the secret — the
digest computation is the `hmacHex` parameter, since the handler only
compares its hex output for string equality — strip the first occurrence
of the substring "sha256=" from the provided signature
(`signature.replace` with a plain string replaces only the first
occurrence), and compare for equality. -/
def verifyHMACSignature (hmacHex : String → String → String)
    (payload signature secret : String) : Bool :=
  let computedHex := hmacHex secret payload
  let expectedSignature := jsReplaceOnce signature "sha256="
  computedHex == expectedSignature

/-- Lowercase hexadecimal digit test (the digest hex is produced with
`b.toString(16).padStart(2, "0")`, all lowercase). -/
def isLowerHexChar (c : Char) : Bool :=
  "0123456789abcdef".data.contains c

/-- All characters of the string are lowercase hex digits. -/
def isLowerHexString (s : String) : Bool :=
  s.data.all isLowerHexChar

/-- Parsed inbound webhook body `{event_type, data, timestamp, event_id}`
(the `data` fields the payment handlers read are `payment_id` and
`gateway_id`). -/
structure WebhookPayload where
  event_type : String
  event_id : String
  payment_id : String
  gateway_id : String
deriving DecidableEq, Repr

/-- Row of `webhook_events` (fields used by the webhooks function). -/
structure WebhookEventRow where
  id : Nat
  event_id : String
  event_type : String
  source : String
  processed : Bool
  processed_at : Option Nat
deriving DecidableEq, Repr

/-- Row of `payments` as mutated by the webhook payment handlers. -/
structure PaymentRow where
  id : Nat
  external_payment_id : Option String
  status : String
  gateway_ref : Option String
deriving DecidableEq, Repr

/-- The tables touched by the webhooks function. -/
structure WebhookDB where
  webhook_events : List WebhookEventRow
  webhook_deliveries : List WebhookDelivery
  payments : List PaymentRow
deriving DecidableEq, Repr

/-- Environment of one webhooks-handler run: the clock and the outcome
of each fallible storage operation. -/
structure WebhookOracle where
  now : Nat
  webhookInsertErr : Bool
  deliveryInsertErr : Bool
  processingErr : Bool
deriving DecidableEq, Repr

/-- `processWebhookEvent`: route by `event_type`; the three known
payment events update every payment whose `external_payment_id` equals
`data.payment_id` (`payment.refunded` leaves `gateway_ref` unchanged);
unknown event types are logged and leave the state unchanged. -/
def processWebhookEvent (ev : WebhookPayload) (db : WebhookDB) : WebhookDB :=
  if ev.event_type == "payment.succeeded" then
    { db with payments := db.payments.map (fun p =>
        if p.external_payment_id == some ev.payment_id then
          { p with status := "succeeded", gateway_ref := some ev.gateway_id } else p) }
  else if ev.event_type == "payment.failed" then
    { db with payments := db.payments.map (fun p =>
        if p.external_payment_id == some ev.payment_id then
          { p with status := "failed", gateway_ref := some ev.gateway_id } else p) }
  else if ev.event_type == "payment.refunded" then
    { db with payments := db.payments.map (fun p =>
        if p.external_payment_id == some ev.payment_id then
          { p with status := "refunded" } else p) }
  else db

/-- Whether the routed handler throws: the three payment handlers throw
exactly when their payments-table update reports an error (oracle flag
`processingErr`); unknown event types never throw. -/
def processThrows (o : WebhookOracle) (ev : WebhookPayload) : Bool :=
  (ev.event_type == "payment.succeeded" || ev.event_type == "payment.failed" ||
    ev.event_type == "payment.refunded") && o.processingErr

/-- The webhooks handler after signature verification and JSON parsing:
duplicate lookup on `event_id`, webhook-event insert, delivery insert
(`attempts = 1`, `status = "processing"`), routing, and the success /
failure bookkeeping.  Returns the final state, HTTP status and response
message. -/
def webhooksProcess (o : WebhookOracle) (ev : WebhookPayload) (db : WebhookDB) :
    WebhookDB × Nat × String :=
  if (db.webhook_events.find? (fun e => e.event_id == ev.event_id)).isSome then
    (db, 200, "Event already processed")
  else if o.webhookInsertErr then
    (db, 500, "Failed to store event")
  else
    let evRow : WebhookEventRow :=
      { id := db.webhook_events.length + 1, event_id := ev.event_id,
        event_type := ev.event_type, source := "payment_gateway",
        processed := false, processed_at := none }
    let db1 := { db with webhook_events := db.webhook_events ++ [evRow] }
    let deliveryRow : Option WebhookDelivery :=
      if o.deliveryInsertErr then none
      else some { id := db1.webhook_deliveries.length + 1, event_type := ev.event_type,
                  status := "processing", attempts := 1, error := none,
                  next_attempt_at := none, delivered_at := none }
    let db2 := match deliveryRow with
      | some d => { db1 with webhook_deliveries := db1.webhook_deliveries ++ [d] }
      | none => db1
    if processThrows o ev then
      let db3 := match deliveryRow with
        | some d =>
          { db2 with webhook_deliveries := db2.webhook_deliveries.map (fun x =>
              if x.id == d.id then
                handleDeliveryFailure o.now "Failed to update payment status" x
              else x) }
        | none => db2
      (db3, 500, "Processing failed, will retry")
    else
      let db3 := processWebhookEvent ev db2
      let db4 := { db3 with webhook_events := db3.webhook_events.map (fun e =>
          if e.id == evRow.id then { e with processed := true, processed_at := some o.now }
          else e) }
      let db5 := match deliveryRow with
        | some d =>
          { db4 with webhook_deliveries := db4.webhook_deliveries.map (fun x =>
              if x.id == d.id then { x with status := "delivered", delivered_at := some o.now }
              else x) }
        | none => db4
      (db5, 200, "Webhook processed successfully")

end Webhooks

/-! ### Payment intake with idempotency ledger (payments/index.ts) -/

namespace Payments

/-- Parsed request body of `POST /payments`.  `amount_cents` is `none`
when the field is absent from the JSON. -/
structure PaymentRequest where
  amount_cents : Option Int
  currency : Option String
  customer_email : Option String
  payment_method : Option String
  user_id : Option String
  metadata : List (String × String)
deriving DecidableEq, Repr

/-- JSON response bodies produced (and stored) by the handler. -/
inductive RespBody where
  | err (msg : String)
  | errConflict (msg detail : String)
  | payment (id : Nat) (external_payment_id : String) (status : String)
      (amount_cents : Int) (currency : String) (created_at : Nat)
deriving DecidableEq, Repr

/-- Row of `idempotency_keys`. -/
structure IdemRecord where
  key : String
  endpoint : String
  method : String
  request_hash : String
  locked : Bool
  response : Option RespBody
  status_code : Option Nat
  last_used_at : Nat
deriving DecidableEq, Repr

/-- Row of `payments` as written by the payments function. -/
structure Payment where
  id : Nat
  amount_cents : Int
  currency : String
  status : String
  external_payment_id : String
  idempotency_key : String
  gateway_ref : Option String
  created_at : Nat
deriving DecidableEq, Repr

/-- Row of `transactions`. -/
structure Txn where
  payment_id : Nat
  external_transaction_id : String
  transaction_type : String
  amount : Int
  currency : String
  status : String
deriving DecidableEq, Repr

/-- The tables touched by the payments function. -/
structure DB where
  idempotency_keys : List IdemRecord
  payments : List Payment
  transactions : List Txn
deriving DecidableEq, Repr

/-- Environment of one handler run: clock (`Date.now()` in ms), the
random id suffix, the stubbed gateway outcome, and whether each fallible
storage operation the handler branches on reports an error. -/
structure Oracle where
  now : Nat
  rand : String
  lockUpsertErr : Bool
  paymentInsertErr : Bool
  paymentErrMsg : String
  gatewaySucceeds : Bool
  paymentUpdateErr : Bool
  txnInsertErr : Bool
deriving DecidableEq, Repr

/-- Outcome of one handler run: final state, HTTP status, response body. -/
structure HResult where
  db : DB
  status : Nat
  body : RespBody
deriving DecidableEq, Repr

/-- `!requestBody.amount_cents || requestBody.amount_cents <= 0`:
a missing or zero amount is falsy, otherwise the explicit bound test. -/
def invalidAmount (b : PaymentRequest) : Bool :=
  match b.amount_cents with
  | none => true
  | some a => a == 0 || decide (a ≤ 0)

/-- Select the idempotency row for a key. -/
def findKeyL (l : List IdemRecord) (k : String) : Option IdemRecord :=
  l.find? (fun r => r.key == k)

def findKey (db : DB) (k : String) : Option IdemRecord :=
  findKeyL db.idempotency_keys k

/-- The locking upsert on `idempotency_keys`: update the listed columns
of the existing row for the key, or insert a fresh row (stored response
and status code start out null). -/
def upsertLockL (l : List IdemRecord) (k h : String) (now : Nat) : List IdemRecord :=
  match findKeyL l k with
  | some _ =>
    l.map (fun r => if r.key == k then
      { r with endpoint := "/payments", method := "POST", request_hash := h,
               locked := true, last_used_at := now } else r)
  | none =>
    l ++ [{ key := k, endpoint := "/payments", method := "POST", request_hash := h,
            locked := true, response := none, status_code := none, last_used_at := now }]

def upsertLock (db : DB) (k h : String) (now : Nat) : DB :=
  { db with idempotency_keys := upsertLockL db.idempotency_keys k h now }

/-- Store the final response and status code on the key row and clear
the lock. -/
def setResponseL (l : List IdemRecord) (k : String) (body : RespBody) (code : Nat) :
    List IdemRecord :=
  l.map (fun r => if r.key == k then
    { r with response := some body, status_code := some code, locked := false } else r)

def setResponse (db : DB) (k : String) (body : RespBody) (code : Nat) : DB :=
  { db with idempotency_keys := setResponseL db.idempotency_keys k body code }

/-- Fresh primary key for a payment row. -/
def freshPaymentId (db : DB) : Nat :=
  db.payments.foldl (fun m p => max m p.id) 0 + 1

/-- The inner try block, entered after the locking upsert succeeded:
insert the pending payment, run the stubbed gateway, record its outcome
on the payment and a transaction row, store the idempotent response
(status 201) and unlock; a thrown error (payment insert failure) is
caught, the error response stored with status 400, and the key
unlocked. -/
def proceedPayment (hashFn : PaymentRequest → String) (o : Oracle) (key : String)
    (req : PaymentRequest) (db : DB) : HResult :=
  if o.lockUpsertErr then ⟨db, 500, .err "Internal server error"⟩
  else
    let db1 := upsertLock db key (hashFn req) o.now
    if o.paymentInsertErr then
      let msg := "Failed to create payment: " ++ o.paymentErrMsg
      ⟨setResponse db1 key (.err msg) 400, 400, .err msg⟩
    else
      let externalPaymentId := "pay_" ++ toString o.now ++ "_" ++ o.rand
      let pid := freshPaymentId db1
      let payment : Payment :=
        { id := pid, amount_cents := req.amount_cents.getD 0,
          currency := req.currency.getD "USD", status := "pending",
          external_payment_id := externalPaymentId, idempotency_key := key,
          gateway_ref := none, created_at := o.now }
      let db2 := { db1 with payments := db1.payments ++ [payment] }
      let gstatus := if o.gatewaySucceeds then "succeeded" else "failed"
      let gref := "gw_" ++ toString o.now
      let db3 := if o.paymentUpdateErr then db2 else
        { db2 with payments := db2.payments.map (fun p =>
            if p.id == pid then { p with status := gstatus, gateway_ref := some gref }
            else p) }
      let db4 := if o.txnInsertErr then db3 else
        { db3 with transactions := db3.transactions ++
            [{ payment_id := pid, external_transaction_id := gref,
               transaction_type := "payment", amount := req.amount_cents.getD 0,
               currency := req.currency.getD "USD", status := gstatus }] }
      let responseBody := RespBody.payment pid externalPaymentId gstatus
        (req.amount_cents.getD 0) (req.currency.getD "USD") o.now
      ⟨setResponse db4 key responseBody 201, 201, responseBody⟩

/-- Body of the `POST /payments` handler: header and body validation,
the idempotency-key dispatch (hash conflict / in-flight / replay of the
stored response), then lock and proceed. -/
def paymentsHandler (hashFn : PaymentRequest → String) (o : Oracle)
    (idempotencyKey : Option String) (body : Option PaymentRequest) (db : DB) : HResult :=
  match idempotencyKey with
  | none => ⟨db, 400, .err "Idempotency-Key header is required"⟩
  | some key =>
    match body with
    | none => ⟨db, 400, .err "Invalid JSON body"⟩
    | some req =>
      if invalidAmount req then ⟨db, 400, .err "Invalid amount"⟩
      else
        match findKey db key with
        | some existing =>
          if existing.request_hash != "" && existing.request_hash != hashFn req then
            ⟨db, 409,
              .errConflict "Idempotency key conflict" "Key used with different request body"⟩
          else if existing.locked then
            ⟨db, 409, .err "Request is being processed"⟩
          else
            match existing.response with
            | some stored => ⟨db, existing.status_code.getD 200, stored⟩
            | none => proceedPayment hashFn o key req db
        | none => proceedPayment hashFn o key req db

/-- The run reaches the locking upsert: the amount is valid and the key
dispatch falls through every early return (no record, or an unlocked
record with matching — or empty — hash and no stored response). -/
def proceedsToLock (hashFn : PaymentRequest → String) (key : String)
    (req : PaymentRequest) (db : DB) : Bool :=
  !invalidAmount req &&
  (match findKey db key with
   | none => true
   | some r =>
     !(r.request_hash != "" && r.request_hash != hashFn req) && !r.locked &&
       r.response.isNone)

/-- The key row as it stands when a proceed run finishes: hash of the
request body, unlocked, with the final response and status stored. -/
def releasedRecord (h k : String) (now : Nat) (body : RespBody) (code : Nat) : IdemRecord :=
  { key := k, endpoint := "/payments", method := "POST", request_hash := h,
    locked := false, response := some body, status_code := some code, last_used_at := now }

end Payments

/-! ### Shared concrete values for witnesses and counterexamples -/

namespace Demo

def hashFn : Payments.PaymentRequest → String := fun _ => "h1"

def req : Payments.PaymentRequest := ⟨some 10000, some "USD", none, none, none, []⟩

def badReq : Payments.PaymentRequest := ⟨some 0, some "USD", none, none, none, []⟩

def oddCurrencyReq : Payments.PaymentRequest :=
  ⟨some 100, some "NOTACURRENCY", none, none, none, []⟩

def oracleOk : Payments.Oracle := ⟨1000, "abc", false, false, "unknown error", true, false, false⟩

def oracleOk2 : Payments.Oracle := ⟨2000, "xyz", false, false, "unknown error", false, false, false⟩

def emptyDB : Payments.DB := ⟨[], [], []⟩

def conflictRecord : Payments.IdemRecord :=
  ⟨"K4", "/payments", "POST", "otherhash", true, none, none, 0⟩

def conflictDB : Payments.DB := ⟨[conflictRecord], [], []⟩

end Demo

end PayMint

namespace PayMint

/-! ### Claim theorems for the reconciliation matcher and retry backoff -/

/-- Claim C1: an unmatched reconciliation record is marked matched to a
payment iff the record's amount equals the payment's amount and the
record's external transaction id equals the payment's external payment id
(exact equality of both fields, no tolerance); when it is marked matched,
the selected `matched_payment_id` points at a payment satisfying both
equalities. -/
theorem claim1_match_iff (payments : List Recon.ReconPayment) (r : Recon.ReconRecord)
    (hst : r.status = "unmatched") (hid : r.matched_payment_id = none) :
    ((Recon.reconcileRecord payments r).status = "matched" ↔
      ∃ p ∈ payments, r.amount = some p.amount ∧
        r.external_transaction_id = p.external_payment_id) ∧
    (∀ pid, (Recon.reconcileRecord payments r).matched_payment_id = some pid →
      ∃ p ∈ payments, p.id = pid ∧ r.amount = some p.amount ∧
        r.external_transaction_id = p.external_payment_id) := by
  unfold Recon.reconcileRecord
  cases hf : payments.find? (Recon.matchesPayment r) with
  | none =>
    rw [List.find?_eq_none] at hf
    constructor
    · constructor
      · intro hm
        rw [hst] at hm
        exact absurd hm (by decide)
      · rintro ⟨p, hp, ha, he⟩
        exact absurd (by simp [Recon.matchesPayment, ha, he]) (hf p hp)
    · intro pid hpid
      rw [hid] at hpid
      exact absurd hpid (by simp)
  | some p =>
    have hmem := List.mem_of_find?_eq_some hf
    have hmatch := List.find?_some hf
    simp only [Recon.matchesPayment, Bool.and_eq_true, beq_iff_eq] at hmatch
    constructor
    · constructor
      · intro _
        exact ⟨p, hmem, hmatch.1, hmatch.2⟩
      · intro _
        rfl
    · intro pid hpid
      simp only [Option.some.injEq] at hpid
      exact ⟨p, hmem, hpid, hmatch.1, hmatch.2⟩

/-- Witness for C1 at the spec's own example: record amount 10000 and
external id PAY_1 against a payment with both fields equal. -/
theorem claim1_match_iff_witness :
    (Recon.ReconRecord.mk 7 (some "PAY_1") (some 10000) "unmatched" none).status = "unmatched" ∧
    (((Recon.reconcileRecord [Recon.ReconPayment.mk 1 10000 (some "PAY_1") 50]
        (Recon.ReconRecord.mk 7 (some "PAY_1") (some 10000) "unmatched" none)).status = "matched" ↔
      ∃ p ∈ [Recon.ReconPayment.mk 1 10000 (some "PAY_1") 50],
        (Recon.ReconRecord.mk 7 (some "PAY_1") (some 10000) "unmatched" none).amount = some p.amount ∧
        (Recon.ReconRecord.mk 7 (some "PAY_1") (some 10000) "unmatched" none).external_transaction_id = p.external_payment_id) ∧
    (∀ pid, (Recon.reconcileRecord [Recon.ReconPayment.mk 1 10000 (some "PAY_1") 50]
        (Recon.ReconRecord.mk 7 (some "PAY_1") (some 10000) "unmatched" none)).matched_payment_id = some pid →
      ∃ p ∈ [Recon.ReconPayment.mk 1 10000 (some "PAY_1") 50], p.id = pid ∧
        (Recon.ReconRecord.mk 7 (some "PAY_1") (some 10000) "unmatched" none).amount = some p.amount ∧
        (Recon.ReconRecord.mk 7 (some "PAY_1") (some 10000) "unmatched" none).external_transaction_id = p.external_payment_id)) :=
  ⟨rfl, claim1_match_iff _ _ rfl rfl⟩

/-- Claim C5: the retry backoff delay is the pure function
`min(2^attempts * 60s, 3600s)` of the attempts counter, with
delay(1) = 120 s, delay(4) = 960 s, delay(6) capped at 3600 s, and
`scheduleRetry` sets `next_attempt_at = now + delay * 1000` ms and
increments the attempts counter. -/
theorem claim5_backoff :
    (∀ n, Webhooks.nextAttemptDelay n = min (2 ^ n * 60) 3600) ∧
    Webhooks.nextAttemptDelay 1 = 120 ∧
    Webhooks.nextAttemptDelay 4 = 960 ∧
    Webhooks.nextAttemptDelay 6 = 3600 ∧
    (∀ now n d, (Webhooks.scheduleRetry now n d).next_attempt_at =
        some (now + min (2 ^ n * 60) 3600 * 1000) ∧
      (Webhooks.scheduleRetry now n d).attempts = n + 1) :=
  ⟨fun _ => rfl, by decide, by decide, by decide, fun _ _ _ => ⟨rfl, rfl⟩⟩

/-- Counterexample to claim C6 as stated: at a failure with
`attempts = 5` the code marks the delivery abandoned but does NOT
increment the attempts counter, contradicting "the attempts counter is
incremented" on every failure. -/
theorem claim6_counterexample :
    (Webhooks.handleDeliveryFailure 0 "boom"
      (Webhooks.WebhookDelivery.mk 1 "payment.succeeded" "processing" 5 none none none)).status
        = "abandoned" ∧
    ¬ ((Webhooks.handleDeliveryFailure 0 "boom"
      (Webhooks.WebhookDelivery.mk 1 "payment.succeeded" "processing" 5 none none none)).attempts
        = (Webhooks.WebhookDelivery.mk 1 "payment.succeeded" "processing" 5 none none none).attempts + 1) := by
  decide

/-- Claim C6 (amended): on a delivery failure the error text is stored;
if the current attempts value is below the maximum of 5 the status is set
to failed, the attempts counter is incremented and a next attempt is
scheduled with the backoff delay; if the current attempts value is
already at least 5 the status is set to abandoned, the attempts counter
is left unchanged and no retry is scheduled. -/
theorem claim6_amended (now : Nat) (msg : String) (d : Webhooks.WebhookDelivery) :
    (Webhooks.handleDeliveryFailure now msg d).error = some msg ∧
    (d.attempts < 5 →
      (Webhooks.handleDeliveryFailure now msg d).status = "failed" ∧
      (Webhooks.handleDeliveryFailure now msg d).attempts = d.attempts + 1 ∧
      (Webhooks.handleDeliveryFailure now msg d).next_attempt_at =
        some (now + Webhooks.nextAttemptDelay d.attempts * 1000)) ∧
    (5 ≤ d.attempts →
      (Webhooks.handleDeliveryFailure now msg d).status = "abandoned" ∧
      (Webhooks.handleDeliveryFailure now msg d).attempts = d.attempts ∧
      (Webhooks.handleDeliveryFailure now msg d).next_attempt_at = d.next_attempt_at) := by
  unfold Webhooks.handleDeliveryFailure Webhooks.scheduleRetry
  by_cases h : d.attempts < 5
  · simp [h]
  · simp [h, Nat.le_of_not_lt h]

/-- Witness for the amended C6 at both branches: a first failure
(attempts 1) schedules a retry, a failure at attempts 5 abandons. -/
theorem claim6_amended_witness :
    ((Webhooks.handleDeliveryFailure 0 "e"
        (Webhooks.WebhookDelivery.mk 1 "t" "processing" 1 none none none)).status = "failed" ∧
      (Webhooks.handleDeliveryFailure 0 "e"
        (Webhooks.WebhookDelivery.mk 1 "t" "processing" 1 none none none)).attempts = 1 + 1 ∧
      (Webhooks.handleDeliveryFailure 0 "e"
        (Webhooks.WebhookDelivery.mk 1 "t" "processing" 1 none none none)).next_attempt_at =
        some (0 + Webhooks.nextAttemptDelay 1 * 1000)) ∧
    ((Webhooks.handleDeliveryFailure 0 "e"
        (Webhooks.WebhookDelivery.mk 2 "t" "processing" 5 none none none)).status = "abandoned") :=
  ⟨(claim6_amended 0 "e" (Webhooks.WebhookDelivery.mk 1 "t" "processing" 1 none none none)).2.1
      (by decide),
   ((claim6_amended 0 "e" (Webhooks.WebhookDelivery.mk 2 "t" "processing" 5 none none none)).2.2
      (by decide)).1⟩

/-- Counterexample to claim C9: with two payments both satisfying the
matching rule, the engine matchesPayment the record to the first payment in the
retrieved list order, not to the most recently created one (and nothing
is flagged for manual review). -/
theorem claim9_counterexample :
    Recon.matchesPayment (Recon.ReconRecord.mk 7 (some "PAY_1") (some 10000) "unmatched" none)
      (Recon.ReconPayment.mk 1 10000 (some "PAY_1") 100) = true ∧
    Recon.matchesPayment (Recon.ReconRecord.mk 7 (some "PAY_1") (some 10000) "unmatched" none)
      (Recon.ReconPayment.mk 2 10000 (some "PAY_1") 200) = true ∧
    (Recon.ReconPayment.mk 1 10000 (some "PAY_1") 100).created_at <
      (Recon.ReconPayment.mk 2 10000 (some "PAY_1") 200).created_at ∧
    (Recon.reconcileRecord
      [Recon.ReconPayment.mk 1 10000 (some "PAY_1") 100,
       Recon.ReconPayment.mk 2 10000 (some "PAY_1") 200]
      (Recon.ReconRecord.mk 7 (some "PAY_1") (some 10000) "unmatched" none)).matched_payment_id
        = some 1 ∧
    ¬ (Recon.reconcileRecord
      [Recon.ReconPayment.mk 1 10000 (some "PAY_1") 100,
       Recon.ReconPayment.mk 2 10000 (some "PAY_1") 200]
      (Recon.ReconRecord.mk 7 (some "PAY_1") (some 10000) "unmatched" none)).matched_payment_id
        = some (Recon.ReconPayment.mk 2 10000 (some "PAY_1") 200).id := by
  decide

/-- Claim C9 (amended): when several payments satisfy both matching
conditions for one record, the run selects the first matching payment in
the order the payments list was retrieved (not the most recently created
one), sets only the record's status and `matched_payment_id`, and does
not flag the remaining candidate payments in any way. -/
theorem claim9_amended (payments : List Recon.ReconPayment) (r : Recon.ReconRecord)
    (p : Recon.ReconPayment) (hf : payments.find? (Recon.matchesPayment r) = some p) :
    Recon.reconcileRecord payments r =
      { r with status := "matched", matched_payment_id := some p.id } := by
  unfold Recon.reconcileRecord
  rw [hf]

/-- Witness for the amended C9 at the two-candidate example. -/
theorem claim9_amended_witness :
    [Recon.ReconPayment.mk 1 10000 (some "PAY_1") 100,
     Recon.ReconPayment.mk 2 10000 (some "PAY_1") 200].find?
      (Recon.matchesPayment (Recon.ReconRecord.mk 9 (some "PAY_1") (some 10000) "unmatched" none))
      = some (Recon.ReconPayment.mk 1 10000 (some "PAY_1") 100) ∧
    Recon.reconcileRecord
      [Recon.ReconPayment.mk 1 10000 (some "PAY_1") 100,
       Recon.ReconPayment.mk 2 10000 (some "PAY_1") 200]
      (Recon.ReconRecord.mk 9 (some "PAY_1") (some 10000) "unmatched" none) =
      { Recon.ReconRecord.mk 9 (some "PAY_1") (some 10000) "unmatched" none with
          status := "matched", matched_payment_id := some 1 } :=
  ⟨by decide,
   claim9_amended
     [Recon.ReconPayment.mk 1 10000 (some "PAY_1") 100,
      Recon.ReconPayment.mk 2 10000 (some "PAY_1") 200]
     (Recon.ReconRecord.mk 9 (some "PAY_1") (some 10000) "unmatched" none)
     (Recon.ReconPayment.mk 1 10000 (some "PAY_1") 100) (by decide)⟩

/-! ### Claim theorems for the webhook dispatcher and signature verifier -/

/-- Claim C7: if the inbound event id is already stored in
`webhook_events`, the handler short-circuits with a 200 success response
and the state is completely unchanged: no new event row, no delivery
row, no payment status transition. -/
theorem claim7_event_dedup (o : Webhooks.WebhookOracle) (ev : Webhooks.WebhookPayload)
    (db : Webhooks.WebhookDB)
    (hdup : (db.webhook_events.find? (fun e => e.event_id == ev.event_id)).isSome = true) :
    Webhooks.webhooksProcess o ev db = (db, 200, "Event already processed") := by
  unfold Webhooks.webhooksProcess
  rw [if_pos hdup]

/-- Witness for C7: re-delivering an already stored event id leaves the
state untouched and answers 200. -/
theorem claim7_event_dedup_witness :
    (((Webhooks.WebhookDB.mk
        [Webhooks.WebhookEventRow.mk 1 "evt_1" "payment.succeeded" "payment_gateway" true (some 5)]
        [] []).webhook_events.find?
          (fun e => e.event_id ==
            (Webhooks.WebhookPayload.mk "payment.succeeded" "evt_1" "pay_1" "gw_1").event_id)).isSome
      = true) ∧
    Webhooks.webhooksProcess (Webhooks.WebhookOracle.mk 0 false false false)
      (Webhooks.WebhookPayload.mk "payment.succeeded" "evt_1" "pay_1" "gw_1")
      (Webhooks.WebhookDB.mk
        [Webhooks.WebhookEventRow.mk 1 "evt_1" "payment.succeeded" "payment_gateway" true (some 5)]
        [] []) =
      (Webhooks.WebhookDB.mk
        [Webhooks.WebhookEventRow.mk 1 "evt_1" "payment.succeeded" "payment_gateway" true (some 5)]
        [] [], 200, "Event already processed") :=
  ⟨by decide,
   claim7_event_dedup (Webhooks.WebhookOracle.mk 0 false false false)
     (Webhooks.WebhookPayload.mk "payment.succeeded" "evt_1" "pay_1" "gw_1")
     (Webhooks.WebhookDB.mk
       [Webhooks.WebhookEventRow.mk 1 "evt_1" "payment.succeeded" "payment_gateway" true (some 5)]
       [] []) (by decide)⟩

/-- Removing the search string from a string it starts with yields the
remainder. -/
theorem removeFirstOcc_append_self (pat l : List Char) (h : pat ≠ []) :
    Webhooks.removeFirstOcc pat (pat ++ l) = l := by
  cases pat with
  | nil => exact absurd rfl h
  | cons a as =>
    have hp : (a :: as).isPrefixOf (a :: (as ++ l)) = true := by
      rw [List.isPrefixOf_iff_prefix]
      exact List.prefix_append _ _
    show Webhooks.removeFirstOcc (a :: as) (a :: (as ++ l)) = l
    rw [Webhooks.removeFirstOcc, if_pos hp]
    exact List.drop_left (a :: as) l

/-- If the first character of the search string occurs nowhere in `l`,
removal leaves `l` unchanged. -/
theorem removeFirstOcc_of_head_notMem (a : Char) (as : List Char) :
    ∀ l : List Char, (∀ c ∈ l, ¬ c = a) → Webhooks.removeFirstOcc (a :: as) l = l := by
  intro l
  induction l with
  | nil => intro _; rfl
  | cons c cs ih =>
    intro h
    have hne : (a == c) = false := by
      have := h c (List.mem_cons_self c cs)
      simp [beq_eq_false_iff_ne]
      intro hac
      exact this hac.symm
    rw [Webhooks.removeFirstOcc, if_neg]
    · rw [ih (fun x hx => h x (List.mem_cons_of_mem c hx))]
    · simp [List.isPrefixOf, hne]

/-- Rebuilding a string from its character list is the identity. -/
theorem string_mk_data (s : String) : String.mk s.data = s := by
  cases s
  rfl

/-- Claim C10: `verifyHMACSignature` accepts exactly the signature
strings that, after removing the first occurrence of the substring
"sha256=" (wherever it appears, or absent entirely), equal the lowercase
hex HMAC digest of the payload under the secret; in particular both the
documented `sha256=<hex>` form and a bare hex digest are accepted. -/
theorem claim10_signature_strip (hmacHex : String → String → String)
    (payload signature secret : String) :
    (Webhooks.verifyHMACSignature hmacHex payload signature secret = true ↔
      Webhooks.jsReplaceOnce signature "sha256=" = hmacHex secret payload) ∧
    Webhooks.verifyHMACSignature hmacHex payload
      ("sha256=" ++ hmacHex secret payload) secret = true ∧
    (Webhooks.isLowerHexString (hmacHex secret payload) = true →
      Webhooks.verifyHMACSignature hmacHex payload (hmacHex secret payload) secret = true) := by
  refine ⟨?_, ?_, ?_⟩
  · unfold Webhooks.verifyHMACSignature
    rw [beq_iff_eq]
    exact eq_comm
  · unfold Webhooks.verifyHMACSignature Webhooks.jsReplaceOnce
    have hd : ("sha256=" ++ hmacHex secret payload).data =
        "sha256=".data ++ (hmacHex secret payload).data := by
      simp [String.data_append]
    rw [hd, removeFirstOcc_append_self _ _ (by decide), string_mk_data, beq_iff_eq]
  · intro hhex
    unfold Webhooks.verifyHMACSignature Webhooks.jsReplaceOnce
    unfold Webhooks.isLowerHexString at hhex
    rw [List.all_eq_true] at hhex
    have hs : "sha256=".data = 's' :: "ha256=".data := by decide
    rw [hs, removeFirstOcc_of_head_notMem 's' _ _ ?_, string_mk_data, beq_iff_eq]
    intro c hc hcs
    have := hhex c hc
    rw [hcs] at this
    exact absurd this (by decide)

/-- Witness for C10: a bare digest (no "sha256=" marker) is accepted. -/
theorem claim10_signature_strip_witness :
    Webhooks.verifyHMACSignature (fun _ _ => "ab") "payload" "ab" "secret" = true :=
  (claim10_signature_strip (fun _ _ => "ab") "payload" "ab" "secret").2.2 (by decide)

/-! ### Claim theorems for the payment intake service -/

/-- A key-respecting row update commutes with looking the key up. -/
theorem findKeyL_map_update (l : List Payments.IdemRecord) (k : String)
    (f : Payments.IdemRecord → Payments.IdemRecord) (hf : ∀ r, (f r).key = r.key) :
    Payments.findKeyL (l.map (fun r => if r.key == k then f r else r)) k
      = (Payments.findKeyL l k).map f := by
  induction l with
  | nil => rfl
  | cons r l ih =>
    unfold Payments.findKeyL at ih ⊢
    by_cases h : r.key = k
    · simp [h, hf]
    · simp only [List.map_cons]
      rw [if_neg (by simpa using h)]
      rw [List.find?_cons_of_neg _ (by simpa using h),
          List.find?_cons_of_neg _ (by simpa using h)]
      exact ih

/-- Looking up a key absent from the front part of an append scans the
back part. -/
theorem findKeyL_append_none (l₁ l₂ : List Payments.IdemRecord) (k : String)
    (h : Payments.findKeyL l₁ k = none) :
    Payments.findKeyL (l₁ ++ l₂) k = Payments.findKeyL l₂ k := by
  unfold Payments.findKeyL at h ⊢
  rw [List.find?_append, h]
  rfl

/-- The key row after the locking upsert: all lock columns set, the
stored response and status code preserved (or null on a fresh row). -/
theorem findKeyL_upsertLockL (l : List Payments.IdemRecord) (k h : String) (now : Nat) :
    ∃ resp scode,
      Payments.findKeyL (Payments.upsertLockL l k h now) k
        = some { key := k, endpoint := "/payments", method := "POST", request_hash := h,
                 locked := true, response := resp, status_code := scode,
                 last_used_at := now } := by
  cases hf : Payments.findKeyL l k with
  | none =>
    refine ⟨none, none, ?_⟩
    unfold Payments.upsertLockL
    simp only [hf]
    rw [findKeyL_append_none _ _ _ hf]
    simp [Payments.findKeyL]
  | some r =>
    refine ⟨r.response, r.status_code, ?_⟩
    have hkey : r.key = k := by
      have := List.find?_some hf
      simpa using this
    have hmap := findKeyL_map_update l k
      (fun r =>
        { r with
            endpoint := "/payments"
            method := "POST"
            request_hash := h
            locked := true
            last_used_at := now })
      (fun r => rfl)
    unfold Payments.upsertLockL
    simp only [hf]
    refine Eq.trans hmap ?_
    rw [hf]
    simp [hkey]

/-- After the locking upsert followed by storing the response, the key
row is exactly the released record. -/
theorem findKeyL_release (l : List Payments.IdemRecord) (k h : String) (now : Nat)
    (body : Payments.RespBody) (code : Nat) :
    Payments.findKeyL (Payments.setResponseL (Payments.upsertLockL l k h now) k body code) k
      = some (Payments.releasedRecord h k now body code) := by
  have hset := findKeyL_map_update (Payments.upsertLockL l k h now) k
    (fun r => { r with response := some body, status_code := some code, locked := false })
    (fun r => rfl)
  refine Eq.trans hset ?_
  obtain ⟨resp, scode, hup⟩ := findKeyL_upsertLockL l k h now
  rw [hup]
  simp [Payments.releasedRecord]

/-- A run that reaches the lock behaves as `proceedPayment`. -/
theorem paymentsHandler_proceed (hashFn : Payments.PaymentRequest → String)
    (o : Payments.Oracle) (key : String) (req : Payments.PaymentRequest)
    (db : Payments.DB) (hp : Payments.proceedsToLock hashFn key req db = true) :
    Payments.paymentsHandler hashFn o (some key) (some req) db
      = Payments.proceedPayment hashFn o key req db := by
  unfold Payments.proceedsToLock at hp
  rw [Bool.and_eq_true] at hp
  obtain ⟨h1, h2⟩ := hp
  have hinv : Payments.invalidAmount req = false := by simpa using h1
  unfold Payments.paymentsHandler
  cases hfk : Payments.findKey db key with
  | none => simp [hinv, hfk]
  | some r =>
    rw [hfk] at h2
    rw [Bool.and_eq_true, Bool.and_eq_true] at h2
    obtain ⟨⟨hc, hl⟩, hres⟩ := h2
    have hl' : r.locked = false := by simpa using hl
    have hres' : r.response = none := by simpa using hres
    have hc2 : r.request_hash = "" ∨ r.request_hash = hashFn req := by simpa using hc
    rcases hc2 with h | h
    · simp [hinv, hfk, hl', hres', h]
    · simp [hinv, hfk, hl', hres', h]

/-- After a run that acquired the lock (the locking upsert did not
fail), the key row is released with the returned response and status
stored. -/
theorem proceed_release (hashFn : Payments.PaymentRequest → String) (o : Payments.Oracle)
    (key : String) (req : Payments.PaymentRequest) (db : Payments.DB)
    (hl : o.lockUpsertErr = false) :
    Payments.findKey (Payments.proceedPayment hashFn o key req db).db key
      = some (Payments.releasedRecord (hashFn req) key o.now
          (Payments.proceedPayment hashFn o key req db).body
          (Payments.proceedPayment hashFn o key req db).status) := by
  unfold Payments.proceedPayment
  cases hpi : o.paymentInsertErr with
  | true =>
    simp [hl, hpi, Payments.findKey, Payments.setResponse, Payments.upsertLock,
      findKeyL_release]
  | false =>
    cases hpu : o.paymentUpdateErr with
    | true =>
      cases hti : o.txnInsertErr with
      | true =>
        simp [hl, hpi, hpu, hti, Payments.findKey, Payments.setResponse,
          Payments.upsertLock, findKeyL_release]
      | false =>
        simp [hl, hpi, hpu, hti, Payments.findKey, Payments.setResponse,
          Payments.upsertLock, findKeyL_release]
    | false =>
      cases hti : o.txnInsertErr with
      | true =>
        simp [hl, hpi, hpu, hti, Payments.findKey, Payments.setResponse,
          Payments.upsertLock, findKeyL_release]
      | false =>
        simp [hl, hpi, hpu, hti, Payments.findKey, Payments.setResponse,
          Payments.upsertLock, findKeyL_release]

/-- Claim C2: every execution that acquires the idempotency lock
terminates with the lock released: on the success path the final
response body and the 201 status are stored and `locked` is cleared, and
on the handled-failure path the error response and 400 status are stored
and `locked` is cleared — the key's record is never left locked by a
completed call. -/
theorem claim2_lock_release (hashFn : Payments.PaymentRequest → String)
    (o : Payments.Oracle) (key : String) (req : Payments.PaymentRequest)
    (db : Payments.DB) (hp : Payments.proceedsToLock hashFn key req db = true)
    (hl : o.lockUpsertErr = false) :
    ∃ r, Payments.findKey (Payments.paymentsHandler hashFn o (some key) (some req) db).db key
        = some r ∧
      r.locked = false ∧
      r.response = some (Payments.paymentsHandler hashFn o (some key) (some req) db).body ∧
      r.status_code = some (Payments.paymentsHandler hashFn o (some key) (some req) db).status := by
  rw [paymentsHandler_proceed hashFn o key req db hp]
  exact ⟨Payments.releasedRecord (hashFn req) key o.now
      (Payments.proceedPayment hashFn o key req db).body
      (Payments.proceedPayment hashFn o key req db).status,
    proceed_release hashFn o key req db hl, rfl, rfl, rfl⟩

/-- Witness for C2 on a fresh key and empty store. -/
theorem claim2_lock_release_witness :
    Payments.proceedsToLock Demo.hashFn "K2" Demo.req Demo.emptyDB = true ∧
    ∃ r, Payments.findKey
        (Payments.paymentsHandler Demo.hashFn Demo.oracleOk (some "K2") (some Demo.req)
          Demo.emptyDB).db "K2" = some r ∧
      r.locked = false ∧
      r.response = some (Payments.paymentsHandler Demo.hashFn Demo.oracleOk (some "K2")
        (some Demo.req) Demo.emptyDB).body ∧
      r.status_code = some (Payments.paymentsHandler Demo.hashFn Demo.oracleOk (some "K2")
        (some Demo.req) Demo.emptyDB).status :=
  ⟨by decide, claim2_lock_release Demo.hashFn Demo.oracleOk "K2" Demo.req Demo.emptyDB
    (by decide) rfl⟩

/-- Claim C3: once a call with key and body completed through the
ledger, a second call with the same key and byte-identical body returns
the stored response with the same status code and leaves the state — in
particular the payments table — unchanged. -/
theorem claim3_replay (hashFn : Payments.PaymentRequest → String)
    (o1 o2 : Payments.Oracle) (key : String) (req : Payments.PaymentRequest)
    (db : Payments.DB) (hp : Payments.proceedsToLock hashFn key req db = true)
    (hl : o1.lockUpsertErr = false) :
    Payments.paymentsHandler hashFn o2 (some key) (some req)
        (Payments.paymentsHandler hashFn o1 (some key) (some req) db).db
      = Payments.paymentsHandler hashFn o1 (some key) (some req) db ∧
    (Payments.paymentsHandler hashFn o2 (some key) (some req)
        (Payments.paymentsHandler hashFn o1 (some key) (some req) db).db).db.payments
      = (Payments.paymentsHandler hashFn o1 (some key) (some req) db).db.payments := by
  have hinv : Payments.invalidAmount req = false := by
    unfold Payments.proceedsToLock at hp
    rw [Bool.and_eq_true] at hp
    simpa using hp.1
  rw [paymentsHandler_proceed hashFn o1 key req db hp]
  have hrel := proceed_release hashFn o1 key req db hl
  have hmain : Payments.paymentsHandler hashFn o2 (some key) (some req)
      (Payments.proceedPayment hashFn o1 key req db).db
      = Payments.proceedPayment hashFn o1 key req db := by
    simp only [Payments.paymentsHandler, hinv, Bool.false_eq_true, if_false, hrel]
    simp [Payments.releasedRecord]
  exact ⟨hmain, by rw [hmain]⟩

/-- Witness for C3: create then replay on a fresh key. -/
theorem claim3_replay_witness :
    Payments.proceedsToLock Demo.hashFn "K3" Demo.req Demo.emptyDB = true ∧
    Payments.paymentsHandler Demo.hashFn Demo.oracleOk2 (some "K3") (some Demo.req)
        (Payments.paymentsHandler Demo.hashFn Demo.oracleOk (some "K3") (some Demo.req)
          Demo.emptyDB).db
      = Payments.paymentsHandler Demo.hashFn Demo.oracleOk (some "K3") (some Demo.req)
          Demo.emptyDB ∧
    (Payments.paymentsHandler Demo.hashFn Demo.oracleOk2 (some "K3") (some Demo.req)
        (Payments.paymentsHandler Demo.hashFn Demo.oracleOk (some "K3") (some Demo.req)
          Demo.emptyDB).db).db.payments
      = (Payments.paymentsHandler Demo.hashFn Demo.oracleOk (some "K3") (some Demo.req)
          Demo.emptyDB).db.payments := by
  refine ⟨by decide, ?_, ?_⟩
  · exact (claim3_replay Demo.hashFn Demo.oracleOk Demo.oracleOk2 "K3" Demo.req Demo.emptyDB
      (by decide) rfl).1
  · exact (claim3_replay Demo.hashFn Demo.oracleOk Demo.oracleOk2 "K3" Demo.req Demo.emptyDB
      (by decide) rfl).2

/-- Claim C4: when a record exists for the key with a (non-null) request
hash different from the incoming body's hash, the handler answers 409
conflict — regardless of the record's lock state — and the state,
including the stored record, is unchanged. -/
theorem claim4_conflict (hashFn : Payments.PaymentRequest → String)
    (o : Payments.Oracle) (key : String) (req : Payments.PaymentRequest)
    (db : Payments.DB) (r : Payments.IdemRecord)
    (hfind : Payments.findKey db key = some r)
    (hnempty : ¬ r.request_hash = "")
    (hdiff : ¬ r.request_hash = hashFn req)
    (hamt : Payments.invalidAmount req = false) :
    Payments.paymentsHandler hashFn o (some key) (some req) db
      = ⟨db, 409,
          .errConflict "Idempotency key conflict" "Key used with different request body"⟩ := by
  unfold Payments.paymentsHandler
  simp [hamt, hfind, hnempty, hdiff]

/-- Witness for C4: a locked record with a different stored hash yields
the conflict and no state change. -/
theorem claim4_conflict_witness :
    Payments.findKey Demo.conflictDB "K4" = some Demo.conflictRecord ∧
    Payments.paymentsHandler Demo.hashFn Demo.oracleOk (some "K4") (some Demo.req)
        Demo.conflictDB
      = ⟨Demo.conflictDB, 409,
          .errConflict "Idempotency key conflict" "Key used with different request body"⟩ :=
  ⟨by decide,
   claim4_conflict Demo.hashFn Demo.oracleOk "K4" Demo.req Demo.conflictDB
     Demo.conflictRecord (by decide) (by decide) (by decide) (by decide)⟩

/-- Counterexample to claim C8: a request whose currency is no currency
at all (not in any supported set) is not rejected — the handler creates
the payment with that currency and answers 201, not 400. -/
theorem claim8_counterexample :
    (Payments.paymentsHandler Demo.hashFn Demo.oracleOk (some "K8")
      (some Demo.oddCurrencyReq) Demo.emptyDB).status = 201 ∧
    ((Payments.paymentsHandler Demo.hashFn Demo.oracleOk (some "K8")
      (some Demo.oddCurrencyReq) Demo.emptyDB).db.payments.map (fun p => p.currency))
      = ["NOTACURRENCY"] ∧
    ¬ (Payments.paymentsHandler Demo.hashFn Demo.oracleOk (some "K8")
      (some Demo.oddCurrencyReq) Demo.emptyDB).status = 400 := by
  refine ⟨rfl, ?_, by decide⟩
  rfl

/-- Claim C8 (amended): the handler rejects with a 400 validation error
every request whose amount is missing, zero or negative, before any
ledger or payment state is touched; the currency is not validated — any
currency string is accepted (defaulting to USD when absent). -/
theorem claim8_amended (hashFn : Payments.PaymentRequest → String)
    (o : Payments.Oracle) (key : String) (req : Payments.PaymentRequest)
    (db : Payments.DB) (h : Payments.invalidAmount req = true) :
    Payments.paymentsHandler hashFn o (some key) (some req) db
      = ⟨db, 400, .err "Invalid amount"⟩ := by
  unfold Payments.paymentsHandler
  simp [h]

/-- Witness for the amended C8 at a zero amount. -/
theorem claim8_amended_witness :
    Payments.invalidAmount Demo.badReq = true ∧
    Payments.paymentsHandler Demo.hashFn Demo.oracleOk (some "K8b") (some Demo.badReq)
        Demo.emptyDB
      = ⟨Demo.emptyDB, 400, .err "Invalid amount"⟩ :=
  ⟨by decide,
   claim8_amended Demo.hashFn Demo.oracleOk "K8b" Demo.badReq Demo.emptyDB (by decide)⟩

end PayMint
